import Mathlib

/-!
Shallow embedding of the topology-synthesis logic of
`src/components/network/NetworkMap.tsx`.

The embedded fragment is the pure core of the component:
* the `Device` record consumed from the device source,
* `getDeviceIcon` (icon lookup keyed by lowercased type, unresolved → none),
* the `graphData` memo: node projection, gateway-hub links, switch-chain
  links and server-attachment links,
* `getNodeColor` (status/type → color string).

External collaborators are abstracted as parameters: the icon dictionary
becomes a function `String → Option ι`, and the `Math.random()` coordinate
source becomes a function `Nat → κ` from the node's position in the device
list to an opaque coordinate value (the claims never inspect coordinate
values, only whether the rest of the output depends on them).
-/

namespace NetworkMap

/-- A device record as consumed by the component (`Device` from the API
types): id, name, type and status strings. -/
structure Device where
  id : String
  name : String
  type : String
  status : String
deriving DecidableEq, Repr, Inhabited

/-- A node of the synthesized graph (`GraphNode`): the device fields plus a
display weight `val`, the resolved icon, and a random location.  `ι` is the
renderable icon type, `κ` the coordinate type; both are opaque to the logic. -/
structure GraphNode (ι κ : Type) where
  id : String
  name : String
  type : String
  status : String
  val : Nat
  icon : Option ι
  location : κ
deriving DecidableEq, Repr

/-- A synthesized link (`GraphLink`): source and target node ids, a link
kind string, and the animated display flag. -/
structure GraphLink where
  source : String
  target : String
  type : String
  animated : Bool
deriving DecidableEq, Repr

/-- The synthesizer's output (`GraphData`): nodes plus links. -/
structure GraphData (ι κ : Type) where
  nodes : List (GraphNode ι κ)
  links : List GraphLink
deriving DecidableEq, Repr

/-- JS `String.prototype.toLowerCase` as used by the component, written as
the per-character ASCII lowercase map over the string's characters (the
same behavior as `String.toLower`, which is `String.map Char.toLower`, but
stated on the character list so it evaluates by kernel reduction). -/
def toLowerCase (s : String) : String :=
  ⟨s.data.map Char.toLower⟩

/-- `getDeviceIcon`: looks the lowercased type up in the icon dictionary;
an unresolved type yields `none` (the source renders `null`). -/
def getDeviceIcon {ι : Type} (iconDictionary : String → Option ι)
    (ty : String) : Option ι :=
  iconDictionary (toLowerCase ty)

/-- `devices.filter(d => d.type === 'switch')` — the `switches` list of the
synthesizer (case-sensitive comparison, as in the source). -/
def switchesOf (devices : List Device) : List Device :=
  devices.filter (fun d => d.type == "switch")

/-- `devices.filter(d => d.type === 'server')` — the `servers` list of the
synthesizer (case-sensitive comparison, as in the source). -/
def serversOf (devices : List Device) : List Device :=
  devices.filter (fun d => d.type == "server")

/-- The gateway-hub links: `devices.slice(1).forEach(...)` pushes one link
per device after the first, with source `gateway.id` where
`gateway = devices[0]`.  On the empty list the JS loop body never runs
(`[].slice(1)` is empty), so no link is pushed and the undefined `gateway`
is never dereferenced; the `[]` branch renders that. -/
def hubLinks (devices : List Device) : List GraphLink :=
  match devices with
  | [] => []
  | gateway :: rest =>
    rest.map (fun device =>
      { source := gateway.id
        target := device.id
        type := "straight"
        animated := device.status == "online" })

/-- The switch-chain links: `switches.forEach((sw, idx) => ...)` guarded by
`idx < switches.length - 1`, linking `sw` to `switches[idx + 1]`.  The
iteration is rendered as a `filterMap` over the index range; the in-bounds
indexing of the source appears as `getElem?` lookups (always `some` under
the guard). -/
def chainLinks (devices : List Device) : List GraphLink :=
  (List.range (switchesOf devices).length).filterMap (fun idx =>
    if idx < (switchesOf devices).length - 1 then
      ((switchesOf devices)[idx]?).bind (fun sw =>
        ((switchesOf devices)[idx + 1]?).map (fun nxt =>
          { source := sw.id
            target := nxt.id
            type := "straight"
            animated := sw.status == "online" && nxt.status == "online" }))
    else none)

/-- The server-attachment links: `servers.forEach((server, idx) => ...)`
attaches each server to `switches[idx % switches.length]` when that element
exists (`if (targetSwitch)` in the source; with zero switches the JS index
is `NaN` and the lookup yields `undefined`, here the lookup on the empty
list yields `none`, so the link is skipped either way). -/
def serverLinks (devices : List Device) : List GraphLink :=
  (List.range (serversOf devices).length).filterMap (fun idx =>
    ((serversOf devices)[idx]?).bind (fun server =>
      ((switchesOf devices)[idx % (switchesOf devices).length]?).map (fun targetSwitch =>
        { source := server.id
          target := targetSwitch.id
          type := "straight"
          animated := server.status == "online" && targetSwitch.status == "online" })))

/-- The topology synthesizer (the `graphData` memo): projects every device
to a node (val 1, icon via `getDeviceIcon`, a fresh random location), then
pushes the gateway-hub links, the switch-chain links and the
server-attachment links, in that order. -/
def graphData {ι κ : Type} (iconDictionary : String → Option ι)
    (randomLocation : Nat → κ) (devices : List Device) : GraphData ι κ :=
  { nodes := devices.enum.map (fun p =>
      { id := p.2.id
        name := p.2.name
        type := p.2.type
        status := p.2.status
        val := 1
        icon := getDeviceIcon iconDictionary p.2.type
        location := randomLocation p.1 })
    links := hubLinks devices ++ chainLinks devices ++ serverLinks devices }

/-- `getNodeColor`: offline always yields the alert red; otherwise dispatch
on the lowercased type with a neutral gray fallback. -/
def getNodeColor {ι κ : Type} (node : GraphNode ι κ) : String :=
  if node.status == "offline" then "#ef4444"
  else
    match toLowerCase node.type with
    | "router" => "#3b82f6"
    | "switch" => "#10b981"
    | "server" => "#8b5cf6"
    | "access-point" => "#3b82f6"
    | _ => "#6b7280"

/-- Sanity example from the spec §8: four devices. -/
def exampleDevices : List Device :=
  [ { id := "gw", name := "gw", type := "router", status := "online" }
  , { id := "s1", name := "s1", type := "switch", status := "online" }
  , { id := "s2", name := "s2", type := "switch", status := "offline" }
  , { id := "srv1", name := "srv1", type := "server", status := "online" } ]

example :
    (graphData (fun _ => (none : Option Unit)) (fun _ => ()) exampleDevices).links =
      [ { source := "gw", target := "s1", type := "straight", animated := true }
      , { source := "gw", target := "s2", type := "straight", animated := false }
      , { source := "gw", target := "srv1", type := "straight", animated := true }
      , { source := "s1", target := "s2", type := "straight", animated := false }
      , { source := "srv1", target := "s1", type := "straight", animated := true } ] := by
  decide

/-! ## Helper lemmas -/

/-- Mapping a function of the second component over an enumeration is
mapping it over the underlying list. -/
lemma enum_map_snd_comp {α β : Type} (l : List α) (f : α → β) :
    l.enum.map (fun p => f p.2) = l.map f := by
  have h := List.map_map f Prod.snd l.enum
  rw [List.enum_map_snd] at h
  exact h.symm

/-- The links of the synthesized graph are the hub links, then the chain
links, then the server links. -/
lemma graphData_links {ι κ : Type} (iconDictionary : String → Option ι)
    (randomLocation : Nat → κ) (devices : List Device) :
    (graphData iconDictionary randomLocation devices).links =
      hubLinks devices ++ chainLinks devices ++ serverLinks devices := rfl

/-- The node ids of the synthesized graph are the device ids, in order. -/
lemma graphData_nodes_ids {ι κ : Type} (iconDictionary : String → Option ι)
    (randomLocation : Nat → κ) (devices : List Device) :
    (graphData iconDictionary randomLocation devices).nodes.map (fun n => n.id) =
      devices.map (fun d => d.id) := by
  show (devices.enum.map _).map _ = _
  rw [List.map_map]
  exact enum_map_snd_comp devices (fun d => d.id)

/-- The guarded adjacent-pair iteration over a list is the map over the
list zipped with its own tail. -/
lemma chainAux {α β : Type} (g : α → α → β) :
    ∀ l : List α,
      (List.range l.length).filterMap (fun idx =>
        if idx < l.length - 1 then
          (l[idx]?).bind (fun a => (l[idx + 1]?).map (fun b => g a b))
        else none) = (l.zip l.tail).map (fun p => g p.1 p.2)
  | [] => by simp
  | [a] => by simp
  | a :: b :: t => by
    have ih := chainAux g (b :: t)
    rw [show (a :: b :: t).length = (b :: t).length + 1 from rfl,
      List.range_succ_eq_map, List.filterMap_cons, List.filterMap_map]
    have hhead :
        (if (0 : Nat) < (b :: t).length + 1 - 1 then
          ((a :: b :: t)[(0 : Nat)]?).bind (fun x =>
            ((a :: b :: t)[(0 : Nat) + 1]?).map (fun y => g x y))
        else none) = some (g a b) := by
      simp
    have htail : ∀ idx ∈ List.range (b :: t).length,
        (if Nat.succ idx < (b :: t).length + 1 - 1 then
          ((a :: b :: t)[Nat.succ idx]?).bind (fun x =>
            ((a :: b :: t)[Nat.succ idx + 1]?).map (fun y => g x y))
        else none) =
        (if idx < (b :: t).length - 1 then
          ((b :: t)[idx]?).bind (fun x => ((b :: t)[idx + 1]?).map (fun y => g x y))
        else none) := by
      intro idx _
      have hiff : Nat.succ idx < (b :: t).length + 1 - 1 ↔ idx < (b :: t).length - 1 := by
        simp only [List.length_cons]
        omega
      by_cases h : idx < (b :: t).length - 1
      · rw [if_pos (hiff.mpr h), if_pos h]
        rw [show (a :: b :: t)[Nat.succ idx]? = (b :: t)[idx]? from List.getElem?_cons_succ,
          show (a :: b :: t)[Nat.succ idx + 1]? = (b :: t)[idx + 1]? from List.getElem?_cons_succ]
      · rw [if_neg (fun hc => h (hiff.mp hc)), if_neg h]
    rw [hhead]
    refine Eq.trans (congrArg (fun x => g a b :: x) (List.filterMap_congr htail)) ?_
    rw [ih]
    rfl

/-- The round-robin attachment iteration, characterized pointwise: with a
non-empty target list `k`, element `i` of the produced list pairs `s[i]`
with `k[i % k.length]`. -/
lemma serverAux {α β : Type} [Inhabited α] (s k : List α) (g : α → α → β)
    (hk : k ≠ []) (i : Nat) :
    ((List.range s.length).filterMap (fun idx =>
      (s[idx]?).bind (fun x => (k[idx % k.length]?).map (fun y => g x y))))[i]? =
    s[i]?.bind (fun x => (k[i % k.length]?).map (fun y => g x y)) := by
  have hk' : 0 < k.length := List.length_pos.mpr hk
  have hcong : ∀ idx ∈ List.range s.length,
      ((s[idx]?).bind (fun x => (k[idx % k.length]?).map (fun y => g x y))) =
      some (g (s.getD idx default) (k.getD (idx % k.length) default)) := by
    intro idx hidx
    rw [List.mem_range] at hidx
    rw [List.getElem?_eq_getElem hidx, List.getElem?_eq_getElem (Nat.mod_lt idx hk'),
      List.getD_eq_getElem?_getD, List.getElem?_eq_getElem hidx,
      List.getD_eq_getElem?_getD, List.getElem?_eq_getElem (Nat.mod_lt idx hk')]
    rfl
  rw [List.filterMap_congr hcong,
    show (fun idx => some (g (s.getD idx default) (k.getD (idx % k.length) default))) =
      some ∘ (fun idx => g (s.getD idx default) (k.getD (idx % k.length) default)) from rfl,
    List.filterMap_eq_map, List.getElem?_map]
  by_cases hi : i < s.length
  · rw [List.getElem?_range hi, List.getElem?_eq_getElem hi,
      List.getElem?_eq_getElem (Nat.mod_lt i hk')]
    simp [List.getD_eq_getElem?_getD, List.getElem?_eq_getElem hi,
      List.getElem?_eq_getElem (Nat.mod_lt i hk')]
  · have hle : s.length ≤ i := Nat.le_of_not_lt hi
    rw [List.getElem?_eq_none (by simpa using hle),
      List.getElem?_eq_none hle]
    rfl

/-- With zero switches, the server-attachment loop produces no links (the
lookup of `switches[idx % switches.length]` fails for every index). -/
lemma serverLinks_of_no_switches (devices : List Device)
    (h : switchesOf devices = []) : serverLinks devices = [] := by
  unfold serverLinks
  rw [h]
  refine List.filterMap_eq_nil_iff.mpr ?_
  intro idx _
  cases (serversOf devices)[idx]? <;> rfl

/-- With a non-empty target list, the round-robin attachment iteration
produces one element per source element. -/
lemma serverAuxLen {α β : Type} [Inhabited α] (s k : List α) (g : α → α → β)
    (hk : k ≠ []) :
    ((List.range s.length).filterMap (fun idx =>
      (s[idx]?).bind (fun x => (k[idx % k.length]?).map (fun y => g x y)))).length =
      s.length := by
  have hk' : 0 < k.length := List.length_pos.mpr hk
  have hcong : ∀ idx ∈ List.range s.length,
      ((s[idx]?).bind (fun x => (k[idx % k.length]?).map (fun y => g x y))) =
      some (g (s.getD idx default) (k.getD (idx % k.length) default)) := by
    intro idx hidx
    rw [List.mem_range] at hidx
    rw [List.getElem?_eq_getElem hidx, List.getElem?_eq_getElem (Nat.mod_lt idx hk'),
      List.getD_eq_getElem?_getD, List.getElem?_eq_getElem hidx,
      List.getD_eq_getElem?_getD, List.getElem?_eq_getElem (Nat.mod_lt idx hk')]
    rfl
  rw [List.filterMap_congr hcong,
    show (fun idx => some (g (s.getD idx default) (k.getD (idx % k.length) default))) =
      some ∘ (fun idx => g (s.getD idx default) (k.getD (idx % k.length) default)) from rfl,
    List.filterMap_eq_map, List.length_map, List.length_range]

/-! ## The claims -/

/-- C1: for the empty device list the synthesizer does not fail and
produces the empty graph: no nodes and no links (in particular no hub,
switch-chain or server-attachment links). -/
theorem synthesize_empty {ι κ : Type} (iconDictionary : String → Option ι)
    (randomLocation : Nat → κ) :
    (graphData iconDictionary randomLocation []).nodes = [] ∧
    (graphData iconDictionary randomLocation []).links = [] :=
  ⟨rfl, rfl⟩

/-- C4: the synthesizer's node list has the same length as the device
list, and the node ids are the device ids in input order. -/
theorem node_projection_spec {ι κ : Type} (iconDictionary : String → Option ι)
    (randomLocation : Nat → κ) (devices : List Device) :
    (graphData iconDictionary randomLocation devices).nodes.length = devices.length ∧
    (graphData iconDictionary randomLocation devices).nodes.map (fun n => n.id) =
      devices.map (fun d => d.id) := by
  constructor
  · show (devices.enum.map _).length = devices.length
    rw [List.length_map, List.enum_length]
  · exact graphData_nodes_ids iconDictionary randomLocation devices

/-- C2: for a non-empty device list `gateway :: rest`, the first
`rest.length` links of the synthesizer's output are exactly one hub link
per device after the first, in input order, with source the first device's
id, target that device's id, and animated iff the target's status is
`"online"`; the hub-link count is `n - 1`. -/
theorem hub_links_spec {ι κ : Type} (iconDictionary : String → Option ι)
    (randomLocation : Nat → κ) (gateway : Device) (rest : List Device) :
    (graphData iconDictionary randomLocation (gateway :: rest)).links.take rest.length =
      rest.map (fun device =>
        { source := gateway.id
          target := device.id
          type := "straight"
          animated := device.status == "online" }) ∧
    (hubLinks (gateway :: rest)).length = rest.length := by
  constructor
  · rw [graphData_links, List.append_assoc]
    have hlen : rest.length = (hubLinks (gateway :: rest)).length := by
      show rest.length = (rest.map _).length
      rw [List.length_map]
    rw [hlen, List.take_left]
    rfl
  · show (rest.map _).length = rest.length
    rw [List.length_map]

/-- C5: the switch-chain link count is `max 0 (s - 1)` where `s` is the
number of devices of type `"switch"`, and the chain links connect each
adjacent pair of switches in relative input order, animated iff both
endpoints are `"online"`. -/
theorem switch_chain_spec (devices : List Device) :
    ((chainLinks devices).length : Int) =
      max 0 (((switchesOf devices).length : Int) - 1) ∧
    chainLinks devices =
      ((switchesOf devices).zip (switchesOf devices).tail).map (fun p =>
        { source := p.1.id
          target := p.2.id
          type := "straight"
          animated := p.1.status == "online" && p.2.status == "online" }) := by
  have h2 : chainLinks devices =
      ((switchesOf devices).zip (switchesOf devices).tail).map (fun p =>
        { source := p.1.id
          target := p.2.id
          type := "straight"
          animated := p.1.status == "online" && p.2.status == "online" }) :=
    chainAux (fun (sw nxt : Device) =>
      ({ source := sw.id
         target := nxt.id
         type := "straight"
         animated := sw.status == "online" && nxt.status == "online" } : GraphLink))
      (switchesOf devices)
  refine ⟨?_, h2⟩
  have hlen : (chainLinks devices).length = (switchesOf devices).length - 1 := by
    rw [h2, List.length_map, List.length_zip, List.length_tail]
    exact min_eq_right (Nat.sub_le _ _)
  rw [hlen]
  omega

/-- C3: the server-attachment links, pointwise: the `i`-th server link
pairs the `i`-th server with switch `i % k` (when that switch exists),
animated iff both are `"online"`; with zero switches the lookup fails for
every index, so no link is produced and nothing fails; with at least one
switch exactly one link per server is produced. -/
theorem server_attachment_spec (devices : List Device) :
    (∀ i : Nat, (serverLinks devices)[i]? =
      ((serversOf devices)[i]?).bind (fun server =>
        ((switchesOf devices)[i % (switchesOf devices).length]?).map (fun targetSwitch =>
          { source := server.id
            target := targetSwitch.id
            type := "straight"
            animated := server.status == "online" && targetSwitch.status == "online" }))) ∧
    (serverLinks devices).length =
      (if switchesOf devices = [] then 0 else (serversOf devices).length) := by
  by_cases h : switchesOf devices = []
  · have hnil := serverLinks_of_no_switches devices h
    constructor
    · intro i
      rw [hnil, h]
      simp
    · rw [hnil, if_pos h]
      rfl
  · constructor
    · intro i
      exact serverAux (serversOf devices) (switchesOf devices)
        (fun (server targetSwitch : Device) =>
          ({ source := server.id
             target := targetSwitch.id
             type := "straight"
             animated := server.status == "online" && targetSwitch.status == "online" } :
            GraphLink)) h i
    · rw [if_neg h]
      exact serverAuxLen (serversOf devices) (switchesOf devices)
        (fun (server targetSwitch : Device) =>
          ({ source := server.id
             target := targetSwitch.id
             type := "straight"
             animated := server.status == "online" && targetSwitch.status == "online" } :
            GraphLink)) h

/-- C6: the synthesizer's output is independent of the random coordinate
source: two runs over the same device list (with any two coordinate
sources, even of different types) give literally identical link lists and
identical nodes up to the location field. -/
theorem structure_deterministic {ι κ₁ κ₂ : Type} (iconDictionary : String → Option ι)
    (randomLocation₁ : Nat → κ₁) (randomLocation₂ : Nat → κ₂) (devices : List Device) :
    (graphData iconDictionary randomLocation₁ devices).links =
      (graphData iconDictionary randomLocation₂ devices).links ∧
    (graphData iconDictionary randomLocation₁ devices).nodes.map
        (fun n => (n.id, n.name, n.type, n.status, n.val, n.icon)) =
      (graphData iconDictionary randomLocation₂ devices).nodes.map
        (fun n => (n.id, n.name, n.type, n.status, n.val, n.icon)) := by
  refine ⟨rfl, ?_⟩
  show (devices.enum.map _).map _ = (devices.enum.map _).map _
  rw [List.map_map, List.map_map]
  rfl

/-- C9: the synthesizer lists the nodes in device input order (witnessed by
the id projection), and the links grouped as all hub links, then all
switch-chain links, then all server-attachment links. -/
theorem output_order_spec {ι κ : Type} (iconDictionary : String → Option ι)
    (randomLocation : Nat → κ) (devices : List Device) :
    (graphData iconDictionary randomLocation devices).nodes.map (fun n => n.id) =
      devices.map (fun d => d.id) ∧
    (graphData iconDictionary randomLocation devices).links =
      hubLinks devices ++ chainLinks devices ++ serverLinks devices :=
  ⟨graphData_nodes_ids iconDictionary randomLocation devices,
   graphData_links iconDictionary randomLocation devices⟩

/-- The spec-side description of node coloring (§4.2): a fixed small
palette keyed by lowercased type, with a neutral gray fallback for an
unrecognized type.  Second definition for the refinement claim C8; to be
compared with `getNodeColor`, which is translated from the source. -/
def colorPalette : List (String × String) :=
  [("router", "#3b82f6"), ("switch", "#10b981"),
   ("server", "#8b5cf6"), ("access-point", "#3b82f6")]

/-- C8: `getNodeColor` is total and refines the spec's description: an
offline node yields the alert color regardless of type; otherwise the
lowercased type is looked up in the fixed palette, any unrecognized type
falling back to the neutral gray. -/
theorem getNodeColor_spec {ι κ : Type} (node : GraphNode ι κ) :
    getNodeColor node =
      if node.status == "offline" then "#ef4444"
      else (colorPalette.lookup (toLowerCase node.type)).getD "#6b7280" := by
  unfold getNodeColor
  cases h : node.status == "offline"
  · simp only [Bool.false_eq_true, if_false]
    split
    · rename_i ht
      simp [colorPalette, List.lookup, ht]
    · rename_i ht
      simp [colorPalette, List.lookup, ht]
    · rename_i ht
      simp [colorPalette, List.lookup, ht]
    · rename_i ht
      simp [colorPalette, List.lookup, ht]
    · rename_i h1 h2 h3 h4
      simp [colorPalette, List.lookup, beq_eq_false_iff_ne.mpr h1,
        beq_eq_false_iff_ne.mpr h2, beq_eq_false_iff_ne.mpr h3,
        beq_eq_false_iff_ne.mpr h4]
  · simp

/-- A device's id occurs among the projected ids of a list containing it. -/
lemma id_mem_map_of_mem (devices : List Device) (d : Device) (hd : d ∈ devices) :
    d.id ∈ devices.map (fun x => x.id) :=
  List.mem_map.mpr ⟨d, hd, rfl⟩

/-- Membership in the switch filter implies membership in the device list. -/
lemma mem_of_mem_switchesOf (devices : List Device) (d : Device)
    (h : d ∈ switchesOf devices) : d ∈ devices :=
  List.mem_of_mem_filter h

/-- Membership in the server filter implies membership in the device list. -/
lemma mem_of_mem_serversOf (devices : List Device) (d : Device)
    (h : d ∈ serversOf devices) : d ∈ devices :=
  List.mem_of_mem_filter h

/-- C7: for a non-empty device list, every link the synthesizer emits has
its source id and its target id among the ids of the emitted nodes. -/
theorem links_reference_nodes {ι κ : Type} (iconDictionary : String → Option ι)
    (randomLocation : Nat → κ) (devices : List Device) (hne : devices ≠ [])
    (link : GraphLink)
    (hmem : link ∈ (graphData iconDictionary randomLocation devices).links) :
    link.source ∈ (graphData iconDictionary randomLocation devices).nodes.map (fun n => n.id) ∧
    link.target ∈ (graphData iconDictionary randomLocation devices).nodes.map (fun n => n.id) := by
  rw [graphData_nodes_ids]
  rw [graphData_links] at hmem
  rcases List.mem_append.mp hmem with hm | hserver
  · rcases List.mem_append.mp hm with hhub | hchain
    · -- hub link
      cases devices with
      | nil => exact absurd rfl hne
      | cons gateway rest =>
        obtain ⟨d, hd, hlink⟩ := List.mem_map.mp hhub
        rw [← hlink]
        exact ⟨id_mem_map_of_mem _ gateway (List.mem_cons_self _ _),
          id_mem_map_of_mem _ d (List.mem_cons_of_mem _ hd)⟩
    · -- switch-chain link
      obtain ⟨idx, _, hf⟩ := List.mem_filterMap.mp hchain
      by_cases hlt : idx < (switchesOf devices).length - 1
      · rw [if_pos hlt] at hf
        cases h1 : (switchesOf devices)[idx]? with
        | none => rw [h1] at hf; simp at hf
        | some sw =>
          cases h2 : (switchesOf devices)[idx + 1]? with
          | none => rw [h1, h2] at hf; simp at hf
          | some nxt =>
            rw [h1, h2] at hf
            rw [← Option.some.inj hf]
            exact ⟨id_mem_map_of_mem _ sw
                (mem_of_mem_switchesOf devices sw (List.getElem?_mem h1)),
              id_mem_map_of_mem _ nxt
                (mem_of_mem_switchesOf devices nxt (List.getElem?_mem h2))⟩
      · rw [if_neg hlt] at hf
        simp at hf
  · -- server-attachment link
    obtain ⟨idx, _, hf⟩ := List.mem_filterMap.mp hserver
    cases h1 : (serversOf devices)[idx]? with
    | none => rw [h1] at hf; simp at hf
    | some server =>
      cases h2 : (switchesOf devices)[idx % (switchesOf devices).length]? with
      | none => rw [h1, h2] at hf; simp at hf
      | some targetSwitch =>
        rw [h1, h2] at hf
        rw [← Option.some.inj hf]
        exact ⟨id_mem_map_of_mem _ server
            (mem_of_mem_serversOf devices server (List.getElem?_mem h1)),
          id_mem_map_of_mem _ targetSwitch
            (mem_of_mem_switchesOf devices targetSwitch (List.getElem?_mem h2))⟩

/-- Witness for C7 at the spec's worked example: the first hub link of the
four-device example references ids present in the node set. -/
theorem links_reference_nodes_witness :
    exampleDevices ≠ [] ∧
    ({ source := "gw", target := "s1", type := "straight", animated := true } : GraphLink) ∈
      (graphData (fun _ => (none : Option Unit)) (fun _ => ()) exampleDevices).links ∧
    (({ source := "gw", target := "s1", type := "straight", animated := true } : GraphLink).source ∈
        (graphData (fun _ => (none : Option Unit)) (fun _ => ()) exampleDevices).nodes.map
          (fun n => n.id) ∧
      ({ source := "gw", target := "s1", type := "straight", animated := true } : GraphLink).target ∈
        (graphData (fun _ => (none : Option Unit)) (fun _ => ()) exampleDevices).nodes.map
          (fun n => n.id)) :=
  ⟨by decide, by decide,
    links_reference_nodes (fun _ => (none : Option Unit)) (fun _ => ()) exampleDevices
      (by decide) _ (by decide)⟩

/-- C10: a device whose type differs from `"switch"` (resp. `"server"`)
only by letter case is treated as a switch (resp. server) by icon
resolution and node coloring, which lowercase the type before lookup, but
is excluded from the switch filter (used by the switch-chain and
server-attachment steps) resp. the server filter, whose comparisons are
case-sensitive. -/
theorem case_sensitivity_split {ι κ ι₂ κ₂ ι₃ : Type}
    (ty ty₂ : String)
    (hlowSw : toLowerCase ty = "switch") (hneSw : ty ≠ "switch")
    (hlowSrv : toLowerCase ty₂ = "server") (hneSrv : ty₂ ≠ "server")
    (iconDictionary : String → Option ι) (iconDictionary₂ : String → Option ι₃)
    (node : GraphNode ι κ) (hn : node.type = ty) (hs : node.status ≠ "offline")
    (node₂ : GraphNode ι₂ κ₂) (hn₂ : node₂.type = ty₂) (hs₂ : node₂.status ≠ "offline")
    (d d₂ : Device) (hd : d.type = ty) (hd₂ : d₂.type = ty₂)
    (devices : List Device) :
    getDeviceIcon iconDictionary d.type = iconDictionary "switch" ∧
    getNodeColor node = "#10b981" ∧
    d ∉ switchesOf devices ∧
    getDeviceIcon iconDictionary₂ d₂.type = iconDictionary₂ "server" ∧
    getNodeColor node₂ = "#8b5cf6" ∧
    d₂ ∉ serversOf devices := by
  refine ⟨?_, ?_, ?_, ?_, ?_, ?_⟩
  · show iconDictionary (toLowerCase d.type) = iconDictionary "switch"
    rw [hd, hlowSw]
  · unfold getNodeColor
    rw [hn, beq_eq_false_iff_ne.mpr hs, hlowSw]
    decide
  · intro hmem
    have hty := (List.mem_filter.mp hmem).2
    rw [hd] at hty
    exact hneSw (by simpa using hty)
  · show iconDictionary₂ (toLowerCase d₂.type) = iconDictionary₂ "server"
    rw [hd₂, hlowSrv]
  · unfold getNodeColor
    rw [hn₂, beq_eq_false_iff_ne.mpr hs₂, hlowSrv]
    decide
  · intro hmem
    have hty := (List.mem_filter.mp hmem).2
    rw [hd₂] at hty
    exact hneSrv (by simpa using hty)

/-- A device whose type is `"Switch"` (capital S), for the C10 witness. -/
def switchCased : Device :=
  { id := "a", name := "a", type := "Switch", status := "online" }

/-- A device whose type is `"Server"` (capital S), for the C10 witness. -/
def serverCased : Device :=
  { id := "b", name := "b", type := "Server", status := "online" }

/-- A graph node whose type is `"Switch"`, for the C10 witness. -/
def switchCasedNode : GraphNode Unit Unit :=
  { id := "a"
    name := "a"
    type := "Switch"
    status := "online"
    val := 1
    icon := none
    location := () }

/-- A graph node whose type is `"Server"`, for the C10 witness. -/
def serverCasedNode : GraphNode Unit Unit :=
  { id := "b"
    name := "b"
    type := "Server"
    status := "online"
    val := 1
    icon := none
    location := () }

/-- Witness for C10 at the concrete types `"Switch"` and `"Server"`. -/
theorem case_sensitivity_split_witness :
    toLowerCase "Switch" = "switch" ∧ "Switch" ≠ "switch" ∧
    toLowerCase "Server" = "server" ∧ "Server" ≠ "server" ∧
    switchCasedNode.type = "Switch" ∧ switchCasedNode.status ≠ "offline" ∧
    serverCasedNode.type = "Server" ∧ serverCasedNode.status ≠ "offline" ∧
    switchCased.type = "Switch" ∧ serverCased.type = "Server" ∧
    (getDeviceIcon (fun _ => (none : Option Unit)) switchCased.type =
        (fun _ => (none : Option Unit)) "switch" ∧
      getNodeColor switchCasedNode = "#10b981" ∧
      switchCased ∉ switchesOf [switchCased, serverCased] ∧
      getDeviceIcon (fun _ => (none : Option Unit)) serverCased.type =
        (fun _ => (none : Option Unit)) "server" ∧
      getNodeColor serverCasedNode = "#8b5cf6" ∧
      serverCased ∉ serversOf [switchCased, serverCased]) :=
  ⟨by decide, by decide, by decide, by decide, rfl, by decide, rfl, by decide, rfl, rfl,
    case_sensitivity_split "Switch" "Server" (by decide) (by decide) (by decide) (by decide)
      (fun _ => (none : Option Unit)) (fun _ => (none : Option Unit))
      switchCasedNode rfl (by decide)
      serverCasedNode rfl (by decide)
      switchCased serverCased rfl rfl
      [switchCased, serverCased]⟩

end NetworkMap
